import Mathlib

/-!
Verification of the mechsolver formula library.

This file gives a shallow embedding, in Lean 4, of the formula-layer functions
of the mechanical-engineering calculator (modules `kinematics`, `thermodynamics`,
`stress_analysis`, `fluid_mechanics`, `machine_design`, `materials`), and proves
or refutes the behavioural claims made about them.

Modelling conventions:
* Python floats are modelled as rationals (`ℚ`).  Transcendental operations
  (`math.sqrt`, `np.sqrt`, `**` with fractional exponent, `cos`, `sin`, `tan`,
  `pi`) that a rational cannot evaluate exactly are passed in as an abstract
  bundle `RealOps`; every theorem quantifies over the bundle, so it holds for
  any interpretation of those operations (in particular the float one).
* The four-bar linkage solver is modelled over `ℝ`, because the claims about
  it concern the exact trigonometric formulas; there NaN (the result of
  `np.sqrt` on a negative float, which numpy produces with only a warning) is
  modelled as `Option.none` and propagated.
* A Python function that can raise is modelled as returning
  `Except String α`, the error string being the message of the raised
  exception.  Float division by a Python-float zero raises
  `ZeroDivisionError`, which `pdiv` models; division by a numpy scalar does
  not raise (numpy returns inf/nan with a warning), so the few such spots are
  modelled with total rational division and noted at the definition.
* A Python dict result is modelled as an association list in insertion order.
-/

namespace MechSolver

/-- A Python dict value that is either a float or a string. -/
inductive PyVal where
  | num (q : ℚ)
  | str (s : String)
deriving DecidableEq, Repr

/-- Python float division: raises `ZeroDivisionError` on a zero divisor. -/
def pdiv (x y : ℚ) : Except String ℚ :=
  if y = 0 then .error "float division by zero" else .ok (x / y)

/-- Abstract interpretations of the real-valued operations used by the code
(`np.sqrt`/`math.sqrt` on nonnegative arguments, `**`/`math.pow`, `np.cos`,
`np.sin`, `np.tan`, and the constant `pi`).  Theorems quantify over this
bundle.  Field order: sqrtf, powf, cosf, sinf, tanf, piq. -/
structure RealOps where
  sqrtf : ℚ → ℚ
  powf : ℚ → ℚ → ℚ
  cosf : ℚ → ℚ
  sinf : ℚ → ℚ
  tanf : ℚ → ℚ
  piq : ℚ

/-- A second concrete interpretation of `RealOps` whose abstract power is
constantly `1/100`, used to instantiate the shaft-design theorem where the
required diameter must land inside the standard-size table. -/
def Ocube : RealOps := ⟨fun _ => 1, fun _ _ => 1 / 100, fun _ => 1, fun _ => 0, fun _ => 1, 1⟩

/-- Antisymmetry of `≤` on `ℚ`, in the form the `List.min?`
characterisation lemma expects. -/
instance : Std.Antisymm (fun a b : ℚ => a ≤ b) :=
  ⟨fun h1 h2 => le_antisymm h1 h2⟩

/-- Degrees-to-radians conversion `np.radians` for the rational model. -/
def radq (piq x : ℚ) : ℚ := x * piq / 180

/-- A fixed concrete interpretation of `RealOps`, used only to instantiate
universally quantified theorems at concrete inputs. -/
def O0 : RealOps := ⟨fun _ => 1, fun _ _ => 1, fun _ => 1, fun _ => 0, fun _ => 1, 3⟩

namespace Thermo

/-- Embeds `ideal_gas_law` of `pc_version/modules/thermodynamics.py`
(lines 8-30).  The four optional arguments are `None`-able floats; the guard
raises unless exactly one of them is `None`; each branch solves `PV = nRT`
for the missing quantity and returns a one-entry dict.  In a branch, the
three present arguments are unwrapped with `Option.getD 0`; the guard
guarantees the default is never used. -/
def ideal_gas_law (pressure volume moles temperature : Option ℚ) (gas_constant : ℚ) :
    Except String (List (String × ℚ)) :=
  if ([pressure, volume, moles, temperature].countP Option.isNone) ≠ 1 then
    .error "Exactly three parameters must be provided to solve for the fourth"
  else if pressure.isNone then
    (pdiv (moles.getD 0 * gas_constant * temperature.getD 0) (volume.getD 0)).map
      fun p => [("pressure", p)]
  else if volume.isNone then
    (pdiv (moles.getD 0 * gas_constant * temperature.getD 0) (pressure.getD 0)).map
      fun v => [("volume", v)]
  else if moles.isNone then
    (pdiv (pressure.getD 0 * volume.getD 0) (gas_constant * temperature.getD 0)).map
      fun n => [("moles", n)]
  else
    (pdiv (pressure.getD 0 * volume.getD 0) (moles.getD 0 * gas_constant)).map
      fun t => [("temperature", t)]

/-- Embeds `ideal_gas_law` of `termux_version/modules/thermodynamics.py`
(lines 8-30): identical to the pc version except for the message of the
validation error. -/
def ideal_gas_law_termux (pressure volume moles temperature : Option ℚ) (gas_constant : ℚ) :
    Except String (List (String × ℚ)) :=
  if ([pressure, volume, moles, temperature].countP Option.isNone) ≠ 1 then
    .error "Exactly three parameters must be provided"
  else if pressure.isNone then
    (pdiv (moles.getD 0 * gas_constant * temperature.getD 0) (volume.getD 0)).map
      fun p => [("pressure", p)]
  else if volume.isNone then
    (pdiv (moles.getD 0 * gas_constant * temperature.getD 0) (pressure.getD 0)).map
      fun v => [("volume", v)]
  else if moles.isNone then
    (pdiv (pressure.getD 0 * volume.getD 0) (gas_constant * temperature.getD 0)).map
      fun n => [("moles", n)]
  else
    (pdiv (pressure.getD 0 * volume.getD 0) (moles.getD 0 * gas_constant)).map
      fun t => [("temperature", t)]

/-- Embeds `heat_transfer` of `pc_version/modules/thermodynamics.py`
(lines 43-68).  Dispatches on the string `mode`; an unrecognised mode falls
through every branch and the (empty) `results` dict is returned, not an
error. -/
def heat_transfer (area k temp_diff thickness : ℚ) (mode : String) :
    Except String (List (String × ℚ)) :=
  if mode = "conduction" then
    (pdiv (k * area * temp_diff) thickness).bind fun q =>
    (pdiv thickness (k * area)).map fun r =>
    [("heat_transfer_rate", q), ("thermal_resistance", r)]
  else if mode = "convection" then
    (pdiv 1 (k * area)).map fun r =>
    [("heat_transfer_rate", k * area * temp_diff), ("thermal_resistance", r)]
  else if mode = "radiation" then
    .ok [("heat_transfer_rate", (5.67e-8 : ℚ) * area * k * temp_diff ^ 4)]
  else
    .ok []

end Thermo

namespace StressA

/-- Embeds `fatigue_analysis` of `pc_version/modules/stress_analysis.py`
(lines 95-139): modified Goodman criterion.  `(stress_amp/Se)**(1/b)` is the
abstract power `O.powf`; the two quotients feeding the safety factor and the
safety factor itself are Python float divisions and can raise. -/
def fatigue_analysis (O : RealOps)
    (stress_max stress_min ultimate_strength endurance_limit
      surface_factor size_factor reliability_factor : ℚ) :
    Except String (List (String × ℚ)) :=
  let stress_amp := (stress_max - stress_min) / 2
  let stress_mean := (stress_max + stress_min) / 2
  let Se := endurance_limit * surface_factor * size_factor * reliability_factor
  (pdiv stress_amp Se).bind fun t1 =>
  (pdiv stress_mean ultimate_strength).bind fun t2 =>
  (pdiv 1 (t1 + t2)).map fun safety_factor =>
  let b : ℚ := -0.085
  let cycles := if safety_factor > 1 then (1e6 : ℚ) else O.powf (stress_amp / Se) (1 / b)
  [("safety_factor", safety_factor), ("modified_endurance_limit", Se),
   ("stress_amplitude", stress_amp), ("mean_stress", stress_mean),
   ("cycles_to_failure", cycles)]

/-- Embeds `pressure_vessel_stress` of `pc_version/modules/stress_analysis.py`
(lines 180-226).  Dispatches on `vessel_type`; the unsupported branch raises
with a message listing the three valid names.  The thin-cylinder von Mises
`np.sqrt` is abstract (its argument is a nonnegative quadratic form for the
physical inputs). -/
def pressure_vessel_stress (O : RealOps) (pressure radius thickness : ℚ)
    (vessel_type : String) : Except String (List (String × ℚ)) :=
  if vessel_type = "thin_cylinder" then
    (pdiv (pressure * radius) thickness).bind fun hoop_stress =>
    (pdiv (pressure * radius) (2 * thickness)).map fun longitudinal_stress =>
    [("hoop_stress", hoop_stress), ("longitudinal_stress", longitudinal_stress),
     ("von_mises_stress", O.sqrtf (hoop_stress ^ 2 - hoop_stress * longitudinal_stress +
        longitudinal_stress ^ 2))]
  else if vessel_type = "thick_cylinder" then
    let r_o := radius + thickness
    let r_i := radius
    (pdiv (r_o ^ 2) (r_i ^ 2)).bind fun c =>
    (pdiv (pressure * (c + 1)) (c - 1)).bind fun hoop_stress_inner =>
    (pdiv (2 * pressure) (c - 1)).map fun hoop_stress_outer =>
    [("hoop_stress_inner", hoop_stress_inner), ("hoop_stress_outer", hoop_stress_outer),
     ("radial_stress_inner", -pressure), ("radial_stress_outer", 0)]
  else if vessel_type = "sphere" then
    (pdiv (pressure * radius) (2 * thickness)).map fun hoop_stress =>
    [("hoop_stress", hoop_stress), ("von_mises_stress", hoop_stress)]
  else
    .error "Invalid vessel type. Choose \x27thin_cylinder\x27, \x27thick_cylinder\x27, or \x27sphere\x27"

/-- Embeds `thermal_stress` of `pc_version/modules/stress_analysis.py`
(lines 228-253).  Only the string `"full"` selects the fully-restrained
branch; every other constraint string silently takes the half-restrained
(`partial`) branch — there is no unsupported-name error. -/
def thermal_stress (temperature_change thermal_expansion youngs_modulus : ℚ)
    (constraint : String) : List (String × ℚ) :=
  if constraint = "full" then
    [("thermal_stress", -thermal_expansion * youngs_modulus * temperature_change),
     ("thermal_strain", 0)]
  else
    [("thermal_stress", -(0.5 : ℚ) * thermal_expansion * youngs_modulus * temperature_change),
     ("thermal_strain", (0.5 : ℚ) * thermal_expansion * temperature_change)]

end StressA

namespace FluidM

/-- Embeds `open_channel_flow` of `pc_version/modules/fluid_mechanics.py`
(lines 173-209).  Only `"rectangular"` is implemented; any other
`channel_type` raises before computing anything.  The Froude division is by a
numpy scalar (no exception; total division models it), the hydraulic-radius
and `1/manning_n` divisions are Python float divisions. -/
def open_channel_flow (O : RealOps) (channel_width flow_depth slope manning_n : ℚ)
    (channel_type : String) : Except String (List (String × PyVal)) :=
  if channel_type = "rectangular" then
    let area := channel_width * flow_depth
    let wetted_perimeter := channel_width + 2 * flow_depth
    (pdiv area wetted_perimeter).bind fun hydraulic_radius =>
    (pdiv 1 manning_n).map fun inv_n =>
    let velocity := inv_n * O.powf hydraulic_radius (2 / 3) * O.sqrtf slope
    let flow_rate := velocity * area
    let froude := velocity / O.sqrtf (9.81 * flow_depth)
    [("flow_rate", .num flow_rate), ("velocity", .num velocity),
     ("froude_number", .num froude),
     ("flow_type", .str (if froude < 1 then "subcritical" else "supercritical"))]
  else
    .error "Only rectangular channels are currently supported"

/-- Embeds `weir_flow` of `pc_version/modules/fluid_mechanics.py`
(lines 211-248).  Dispatches on `weir_type`; the unsupported branch raises
with a message listing the two valid names. -/
def weir_flow (O : RealOps) (weir_height weir_width head_ : ℚ) (weir_type : String) :
    Except String (List (String × ℚ)) :=
  if weir_type = "rectangular" then
    .ok [("flow_rate", 2 / 3 * (0.61 : ℚ) * weir_width * O.sqrtf (2 * 9.81) *
            O.powf head_ (3 / 2)),
         ("discharge_coefficient", 0.61)]
  else if weir_type = "v-notch" then
    .ok [("flow_rate", 8 / 15 * (0.59 : ℚ) * O.tanf (radq O.piq 90 / 2) *
            O.sqrtf (2 * 9.81) * O.powf head_ (5 / 2)),
         ("discharge_coefficient", 0.59)]
  else
    .error "Invalid weir type. Choose \x27rectangular\x27 or \x27v-notch\x27"

end FluidM

namespace Kinematics

/-- Embeds `solve_motion` of `pc_version/modules/kinematics.py` (lines 7-23).
Two supported argument combinations; anything else returns the empty results
dict.  The second branch's `np.sqrt` is abstract and its time quotient is a
division by a plain float through numpy scalars (no exception; total division
models it). -/
def solve_motion (O : RealOps) (velocity acceleration time displacement : Option ℚ) :
    List (String × ℚ) :=
  if velocity.isSome ∧ acceleration.isSome ∧ time.isSome then
    let v := velocity.getD 0
    let a := acceleration.getD 0
    let t := time.getD 0
    [("displacement", v * t + (0.5 : ℚ) * a * t ^ 2), ("final_velocity", v + a * t)]
  else if velocity.isSome ∧ displacement.isSome ∧ acceleration.isSome then
    let v := velocity.getD 0
    let a := acceleration.getD 0
    let s := displacement.getD 0
    [("final_velocity", O.sqrtf (v ^ 2 + 2 * a * s)),
     ("time", (-v + O.sqrtf (v ^ 2 + 2 * a * s)) / a)]
  else
    []

/-- Embeds the lift profile `simple_harmonic_lift` local to `cam_analysis`
(`pc_version/modules/kinematics.py` lines 204-205). -/
def simple_harmonic_lift (O : RealOps) (lift theta : ℚ) : ℚ :=
  lift * (1 - O.cosf theta) / 2

/-- Embeds the lift profile `cycloidal_lift` (lines 207-208). -/
def cycloidal_lift (O : RealOps) (lift theta : ℚ) : ℚ :=
  lift * (theta / (2 * O.piq) - O.sinf theta / (2 * O.piq))

/-- Embeds the lift profile `parabolic_lift` (lines 210-214). -/
def parabolic_lift (O : RealOps) (lift theta : ℚ) : ℚ :=
  if theta < O.piq then 2 * lift * (theta / O.piq) ^ 2
  else 2 * lift * (2 - theta / O.piq) ^ 2

/-- Embeds `cam_analysis` of `pc_version/modules/kinematics.py`
(lines 197-242), scalar-angle path (the sequence path applies the same lift
function pointwise).  An unknown `cam_type` raises, with the message listing
the keys of the dispatch dict in insertion order, before any computation. -/
def cam_analysis (O : RealOps) (base_circle_radius lift angle : ℚ) (cam_type : String) :
    Except String (List (String × ℚ)) :=
  if cam_type ∉ ["simple_harmonic", "cycloidal", "parabolic"] then
    .error "Unsupported cam type. Choose from: [\x27simple_harmonic\x27, \x27cycloidal\x27, \x27parabolic\x27]"
  else
    let theta := radq O.piq angle
    let displacement :=
      if cam_type = "simple_harmonic" then simple_harmonic_lift O lift theta
      else if cam_type = "cycloidal" then cycloidal_lift O lift theta
      else parabolic_lift O lift theta
    .ok [("displacement", displacement), ("base_circle_radius", base_circle_radius),
         ("total_radius", base_circle_radius + displacement)]

/-- Degrees-to-radians `np.radians` over `ℝ`. -/
noncomputable def radiansR (x : ℝ) : ℝ := x * Real.pi / 180

/-- Radians-to-degrees `np.degrees` over `ℝ`. -/
noncomputable def degreesR (x : ℝ) : ℝ := x * 180 / Real.pi

/-- Models `np.sqrt` on a float scalar: a negative argument produces NaN
(with only a RuntimeWarning), modelled as `none`; otherwise the real square
root. -/
noncomputable def npSqrt (x : ℝ) : Option ℝ :=
  if x < 0 then none else some (Real.sqrt x)

/-- Models `np.arctan2 y x` (the standard four-quadrant arctangent). -/
noncomputable def atan2 (y x : ℝ) : ℝ :=
  if 0 < x then Real.arctan (y / x)
  else if x < 0 then
    (if 0 ≤ y then Real.arctan (y / x) + Real.pi else Real.arctan (y / x) - Real.pi)
  else if 0 < y then Real.pi / 2
  else if y < 0 then -(Real.pi / 2)
  else 0

/-- Embeds the inner `solve_position` of `four_bar_mechanism`
(`pc_version/modules/kinematics.py` lines 126-142), for links
`a = crank`, `b = coupler`, `c = rocker`, `d = ground` and crank angle
`theta` in radians.  When the discriminant `A² + B² − C²` is negative,
`np.sqrt` yields NaN and every downstream quantity (`beta`, `gamma`) is NaN,
modelled by `none` in both components; the function still returns normally.
Note the code takes `np.arctan` of the quotient `(-B + sqrt(...)) / (C - A)`,
not the two-argument `np.arctan2`. -/
noncomputable def fb_solve_position (a b c d theta : ℝ) : Option ℝ × Option ℝ :=
  let A := 2 * a * d * Real.cos theta
  let B := 2 * a * d * Real.sin theta
  let C := a ^ 2 + d ^ 2 - b ^ 2 + c ^ 2 + 2 * a * d * Real.cos theta
  match npSqrt (A ^ 2 + B ^ 2 - C ^ 2) with
  | none => (none, none)
  | some s =>
      let beta := 2 * Real.arctan ((-B + s) / (C - A))
      let gamma := atan2 (c * Real.sin beta - a * Real.sin theta)
        (c * Real.cos beta - a * Real.cos theta)
      (some beta, some gamma)

/-- Embeds `four_bar_mechanism` of `pc_version/modules/kinematics.py`
(lines 118-161), scalar crank-angle path: converts the crank angle to
radians, runs `solve_position`, and returns the two angles converted to
degrees (`NaN`, i.e. `none`, passes through `np.degrees` unchanged). -/
noncomputable def four_bar_mechanism
    (crank_length coupler_length rocker_length ground_length crank_angle : ℝ) :
    List (String × Option ℝ) :=
  let p := fb_solve_position crank_length coupler_length rocker_length ground_length
    (radiansR crank_angle)
  [("rocker_angle", p.1.map degreesR), ("coupler_angle", p.2.map degreesR)]

/-- Coefficient `A = 2·a·d·cos θ` as written in the specification of the
four-bar position solve. -/
noncomputable def specA (a d theta : ℝ) : ℝ := 2 * a * d * Real.cos theta

/-- Coefficient `B = 2·a·d·sin θ` as written in the specification. -/
noncomputable def specB (a d theta : ℝ) : ℝ := 2 * a * d * Real.sin theta

/-- Coefficient `C = a² + d² − b² + c² + 2·a·d·cos θ` as written in the
specification. -/
noncomputable def specC (a b c d theta : ℝ) : ℝ :=
  a ^ 2 + d ^ 2 - b ^ 2 + c ^ 2 + 2 * a * d * Real.cos theta

/-- The assemblability discriminant `A² + B² − C²` of the specification. -/
noncomputable def specDisc (a b c d theta : ℝ) : ℝ :=
  specA a d theta ^ 2 + specB a d theta ^ 2 - specC a b c d theta ^ 2

/-- The rocker angle exactly as the claim words it:
`β = 2·atan2(−B + √(A² + B² − C²), C − A)`. -/
noncomputable def claimedRockerAtan2 (a b c d theta : ℝ) : ℝ :=
  2 * atan2 (-specB a d theta + Real.sqrt (specDisc a b c d theta))
    (specC a b c d theta - specA a d theta)

/-- The rocker angle as the code actually computes it:
`β = 2·atan((−B + √(A² + B² − C²)) / (C − A))`, the one-argument arctangent
of the quotient. -/
noncomputable def amendedRockerArctan (a b c d theta : ℝ) : ℝ :=
  2 * Real.arctan ((-specB a d theta + Real.sqrt (specDisc a b c d theta)) /
    (specC a b c d theta - specA a d theta))

/-- The coupler angle via `atan2`, as both the claim and the code state it,
given the rocker angle `beta`. -/
noncomputable def specCoupler (a c theta beta : ℝ) : ℝ :=
  atan2 (c * Real.sin beta - a * Real.sin theta) (c * Real.cos beta - a * Real.cos theta)

end Kinematics

namespace MachineD

/-- The fixed table of standard shaft diameters in millimetres
(`pc_version/modules/machine_design.py` line 98). -/
def std_sizes : List ℚ := [10, 12, 15, 17, 20, 25, 30, 35, 40, 45, 50, 55, 60, 70, 80, 90, 100]

/-- Embeds `shaft_design` of `pc_version/modules/machine_design.py`
(lines 68-112).  `math.sqrt` and `math.pow(·, 1/3)` are abstract; the
strength divisors are Python float divisions (they raise on zero); the
standard-size selection is `min(size for size in std_sizes if size >=
diameter_mm)`, which raises `ValueError` on an empty candidate set. -/
def shaft_design (O : RealOps) (torque bending_moment material_yield_strength : ℚ)
    (fatigue_strength : Option ℚ) (safety_factor stress_concentration_factor : ℚ) :
    Except String (List (String × ℚ)) :=
  let fs := fatigue_strength.getD ((0.5 : ℚ) * material_yield_strength)
  let Sy := material_yield_strength * 1e6
  let Sf := fs * 1e6
  let Me := O.sqrtf ((stress_concentration_factor * bending_moment) ^ 2 +
    (0.75 : ℚ) * (stress_concentration_factor * torque) ^ 2)
  (pdiv (16 * safety_factor * Me) (O.piq * Sy)).bind fun ds_arg =>
  let d_static := O.powf ds_arg (1 / 3)
  (pdiv (16 * safety_factor * Me) (O.piq * Sf)).bind fun df_arg =>
  let d_fatigue := O.powf df_arg (1 / 3)
  let diameter := max d_static d_fatigue
  let diameter_mm := diameter * 1000
  match (std_sizes.filter fun s => diameter_mm ≤ s).min? with
  | none => .error "min() arg is an empty sequence"
  | some m =>
    let actual_diameter := m / 1000
    (pdiv (32 * Me) (O.piq * actual_diameter ^ 3)).bind fun actual_stress =>
    (pdiv (min Sy Sf) actual_stress).map fun safety_margin =>
    [("required_diameter", diameter), ("actual_diameter", actual_diameter),
     ("equivalent_moment", Me), ("maximum_stress", actual_stress / 1e6),
     ("actual_safety_factor", safety_margin)]

/-- The equivalent moment `Me` of the ASME combined-loading formula, as the
code computes it (under the abstract square root). -/
def asmeMe (O : RealOps) (torque bending_moment stress_concentration_factor : ℚ) : ℚ :=
  O.sqrtf ((stress_concentration_factor * bending_moment) ^ 2 +
    (0.75 : ℚ) * (stress_concentration_factor * torque) ^ 2)

/-- The governing required diameter in metres: the larger of the static- and
fatigue-governed diameters computed from the ASME equivalent moment (total
division; coincides with the code wherever the code does not raise). -/
def requiredDiameter (O : RealOps) (torque bending_moment material_yield_strength : ℚ)
    (fatigue_strength : Option ℚ) (safety_factor stress_concentration_factor : ℚ) : ℚ :=
  let fs := fatigue_strength.getD ((0.5 : ℚ) * material_yield_strength)
  let Sy := material_yield_strength * 1e6
  let Sf := fs * 1e6
  let Me := asmeMe O torque bending_moment stress_concentration_factor
  max (O.powf (16 * safety_factor * Me / (O.piq * Sy)) (1 / 3))
    (O.powf (16 * safety_factor * Me / (O.piq * Sf)) (1 / 3))

end MachineD

namespace Materials

/-- Embeds the static `MATERIALS_DB` of `termux_version/modules/materials.py`
(lines 9-40): a module-level constant mapping material codes to property
dicts. -/
def MATERIALS_DB : List (String × List (String × PyVal)) :=
  [("STEEL_1045",
    [("name", .str "Steel AISI 1045"), ("density", .num 7850),
     ("elastic_modulus", .num 205), ("poisson_ratio", .num 0.29),
     ("yield_strength", .num 505), ("ultimate_strength", .num 585),
     ("thermal_conductivity", .num 49.8), ("thermal_expansion", .num 11.5e-6)]),
   ("AL_6061",
    [("name", .str "Aluminum 6061-T6"), ("density", .num 2700),
     ("elastic_modulus", .num 68.9), ("poisson_ratio", .num 0.33),
     ("yield_strength", .num 276), ("ultimate_strength", .num 310),
     ("thermal_conductivity", .num 167), ("thermal_expansion", .num 23.6e-6)]),
   ("BRASS_360",
    [("name", .str "Brass C360"), ("density", .num 8500),
     ("elastic_modulus", .num 97), ("poisson_ratio", .num 0.34),
     ("yield_strength", .num 310), ("ultimate_strength", .num 379),
     ("thermal_conductivity", .num 115), ("thermal_expansion", .num 20.3e-6)])]

/-- Embeds `get_material_properties` (lines 42-44):
`MATERIALS_DB.get(material_code, {})` — an absent code yields the EMPTY dict,
a normal (non-failing) return. -/
def get_material_properties (material_code : String) : List (String × PyVal) :=
  (MATERIALS_DB.lookup material_code).getD []

/-- A numeric property subscript `properties[key]`: `KeyError` if absent (it
never is for the codes in the table). -/
def propNum (properties : List (String × PyVal)) (key : String) : Except String ℚ :=
  match properties.lookup key with
  | some (.num q) => .ok q
  | _ => .error "KeyError"

/-- Embeds `calculate_stress_strain` (lines 46-64): raises
`"Material not found in database"` when the property dict is empty, else
derives stress, strain and safety factor. -/
def calculate_stress_strain (force area : ℚ) (material_code : String) :
    Except String (List (String × ℚ)) :=
  let properties := get_material_properties material_code
  if properties.isEmpty then .error "Material not found in database"
  else
    (pdiv force area).bind fun stress =>
    (propNum properties "elastic_modulus").bind fun E =>
    (pdiv stress (E * 1e9)).bind fun strain =>
    (propNum properties "yield_strength").bind fun sy =>
    (pdiv (sy * 1e6) stress).map fun safety_factor =>
    [("stress", stress), ("strain", strain), ("safety_factor", safety_factor)]

/-- Embeds `thermal_expansion` (lines 66-83). -/
def thermal_expansion (material_code : String) (initial_length temperature_change : ℚ) :
    Except String (List (String × ℚ)) :=
  let properties := get_material_properties material_code
  if properties.isEmpty then .error "Material not found in database"
  else
    (propNum properties "thermal_expansion").bind fun alpha =>
    let delta_l := initial_length * alpha * temperature_change
    let final_length := initial_length + delta_l
    (pdiv delta_l initial_length).map fun strain =>
    [("length_change", delta_l), ("final_length", final_length), ("strain", strain)]

/-- Embeds `heat_conduction` (lines 85-102). -/
def heat_conduction (material_code : String) (area thickness temperature_difference : ℚ) :
    Except String (List (String × ℚ)) :=
  let properties := get_material_properties material_code
  if properties.isEmpty then .error "Material not found in database"
  else
    (propNum properties "thermal_conductivity").bind fun k =>
    (pdiv (k * area * temperature_difference) thickness).bind fun heat_flux =>
    (pdiv thickness (k * area)).map fun thermal_resistance =>
    [("heat_flux", heat_flux), ("thermal_resistance", thermal_resistance)]

/-- The per-kilogram cost table local to `material_cost_estimate`
(lines 110-115). -/
def material_costs : List (String × ℚ) :=
  [("STEEL_1045", 2.5), ("AL_6061", 4.8), ("BRASS_360", 7.2)]

/-- Embeds `material_cost_estimate` (lines 104-129). -/
def material_cost_estimate (material_code : String) (volume processing_factor : ℚ) :
    Except String (List (String × ℚ)) :=
  let properties := get_material_properties material_code
  if properties.isEmpty then .error "Material not found in database"
  else
    (propNum properties "density").map fun density =>
    let mass := density * volume
    let base_cost := mass * ((material_costs.lookup material_code).getD 0)
    let total_cost := base_cost * processing_factor
    [("mass", mass), ("material_cost", base_cost), ("total_cost", total_cost)]

end Materials

/-! ## Helper lemmas -/

theorem pdiv_ok {x y : ℚ} (h : y ≠ 0) : pdiv x y = .ok (x / y) := by
  simp [pdiv, h]

theorem pdiv_zero (x : ℚ) : pdiv x 0 = .error "float division by zero" := by
  simp [pdiv]

/-! ## Claim C3: ideal_gas_law argument counting -/

/-- Claim C3, counterexample: the claim says `ideal_gas_law` fails if and
ONLY if the number of provided arguments is not exactly three; but with
exactly three provided (volume `0`, moles `1`, temperature `1`; pressure
omitted, so exactly one `None`) the call still fails, with a
`ZeroDivisionError`, refuting the only-if direction. -/
theorem ideal_gas_law_fails_with_three_provided :
    ([none, some (0 : ℚ), some 1, some 1].countP Option.isNone = 1) ∧
    Thermo.ideal_gas_law none (some 0) (some 1) (some 1) 8.314 =
      .error "float division by zero" := by
  exact ⟨by decide, rfl⟩

/-- Claim C3, amended: `ideal_gas_law` (both variants) fails with the
"exactly three" validation error whenever the number of non-null arguments
among pressure, volume, moles, temperature is not exactly three; when
exactly three are provided and the divisor of the solved-for branch is
nonzero, it returns the fourth quantity solved algebraically from
`PV = nRT` (a zero divisor instead raises a division error). -/
theorem ideal_gas_law_exactly_three :
    (∀ (p v n t : Option ℚ) (r : ℚ), [p, v, n, t].countP Option.isNone ≠ 1 →
      Thermo.ideal_gas_law p v n t r =
        .error "Exactly three parameters must be provided to solve for the fourth" ∧
      Thermo.ideal_gas_law_termux p v n t r =
        .error "Exactly three parameters must be provided") ∧
    (∀ v n t r : ℚ, v ≠ 0 →
      Thermo.ideal_gas_law none (some v) (some n) (some t) r =
        .ok [("pressure", n * r * t / v)] ∧
      Thermo.ideal_gas_law_termux none (some v) (some n) (some t) r =
        .ok [("pressure", n * r * t / v)]) ∧
    (∀ p n t r : ℚ, p ≠ 0 →
      Thermo.ideal_gas_law (some p) none (some n) (some t) r =
        .ok [("volume", n * r * t / p)] ∧
      Thermo.ideal_gas_law_termux (some p) none (some n) (some t) r =
        .ok [("volume", n * r * t / p)]) ∧
    (∀ p v t r : ℚ, r * t ≠ 0 →
      Thermo.ideal_gas_law (some p) (some v) none (some t) r =
        .ok [("moles", p * v / (r * t))] ∧
      Thermo.ideal_gas_law_termux (some p) (some v) none (some t) r =
        .ok [("moles", p * v / (r * t))]) ∧
    (∀ p v n r : ℚ, n * r ≠ 0 →
      Thermo.ideal_gas_law (some p) (some v) (some n) none r =
        .ok [("temperature", p * v / (n * r))] ∧
      Thermo.ideal_gas_law_termux (some p) (some v) (some n) none r =
        .ok [("temperature", p * v / (n * r))]) := by
  refine ⟨?_, ?_, ?_, ?_, ?_⟩
  · intro p v n t r h
    constructor <;> simp [Thermo.ideal_gas_law, Thermo.ideal_gas_law_termux, h]
  · intro v n t r hv
    constructor <;>
      simp [Thermo.ideal_gas_law, Thermo.ideal_gas_law_termux, pdiv, Except.map, hv]
  · intro p n t r hp
    constructor <;>
      simp [Thermo.ideal_gas_law, Thermo.ideal_gas_law_termux, pdiv, Except.map, hp]
  · intro p v t r hrt
    constructor <;>
      simp [Thermo.ideal_gas_law, Thermo.ideal_gas_law_termux, pdiv, Except.map, hrt]
  · intro p v n r hnr
    constructor <;>
      simp [Thermo.ideal_gas_law, Thermo.ideal_gas_law_termux, pdiv, Except.map, hnr]

/-- Claim C3, witness: the amended theorem applied at concrete inputs — four
provided arguments trigger the validation error, and each three-of-four
pattern solves for its missing quantity. -/
theorem ideal_gas_law_exactly_three_witness :
    ([some (1 : ℚ), some 1, some 1, some 1].countP Option.isNone ≠ 1) ∧
    Thermo.ideal_gas_law (some 1) (some 1) (some 1) (some 1) 8.314 =
      .error "Exactly three parameters must be provided to solve for the fourth" ∧
    Thermo.ideal_gas_law none (some 2) (some 1) (some 300) 8.314 =
      .ok [("pressure", 1 * 8.314 * 300 / 2)] ∧
    Thermo.ideal_gas_law (some 4) none (some 1) (some 300) 8.314 =
      .ok [("volume", 1 * 8.314 * 300 / 4)] ∧
    Thermo.ideal_gas_law (some 4) (some 2) none (some 300) 8.314 =
      .ok [("moles", 4 * 2 / (8.314 * 300))] ∧
    Thermo.ideal_gas_law (some 4) (some 2) (some 1) none 8.314 =
      .ok [("temperature", 4 * 2 / (1 * 8.314))] := by
  refine ⟨by decide, (ideal_gas_law_exactly_three.1 _ _ _ _ _ (by decide)).1,
    (ideal_gas_law_exactly_three.2.1 2 1 300 8.314 (by norm_num)).1,
    (ideal_gas_law_exactly_three.2.2.1 4 1 300 8.314 (by norm_num)).1,
    (ideal_gas_law_exactly_three.2.2.2.1 4 2 300 8.314 (by norm_num)).1,
    (ideal_gas_law_exactly_three.2.2.2.2 4 2 1 8.314 (by norm_num)).1⟩

/-! ## Claim C4: solve_motion -/

/-- Claim C4: with velocity, acceleration and time all provided,
`solve_motion` returns `displacement = v·t + 0.5·a·t²` and
`final_velocity = v + a·t` (whatever the displacement argument is); and for
every argument combination matching neither supported branch it returns the
empty result dict. -/
theorem solve_motion_spec :
    (∀ (O : RealOps) (v a t : ℚ) (d : Option ℚ),
      Kinematics.solve_motion O (some v) (some a) (some t) d =
        [("displacement", v * t + (0.5 : ℚ) * a * t ^ 2), ("final_velocity", v + a * t)]) ∧
    (∀ (O : RealOps) (v a t d : Option ℚ),
      ¬(v.isSome ∧ a.isSome ∧ t.isSome) → ¬(v.isSome ∧ d.isSome ∧ a.isSome) →
      Kinematics.solve_motion O v a t d = []) := by
  constructor
  · intro O v a t d
    simp [Kinematics.solve_motion]
  · intro O v a t d h1 h2
    simp only [Kinematics.solve_motion, if_neg h1, if_neg h2]

/-- Claim C4, witness: the theorem applied at `(v, a, t) = (3, 2, 4)` (first
part) and at the unsupported combination where only acceleration and time
are given (second part). -/
theorem solve_motion_spec_witness :
    Kinematics.solve_motion O0 (some 3) (some 2) (some 4) none =
      [("displacement", 3 * 4 + (0.5 : ℚ) * 2 * 4 ^ 2), ("final_velocity", 3 + 2 * 4)] ∧
    Kinematics.solve_motion O0 none (some 2) (some 4) none = [] := by
  exact ⟨solve_motion_spec.1 O0 3 2 4 none,
    solve_motion_spec.2 O0 none (some 2) (some 4) none (by decide) (by decide)⟩

/-! ## Claim C2: string-named variant dispatch -/

/-- Claim C2, counterexample: the claim covers the heat-transfer mode and
constraint-type dispatchers too, but `heat_transfer` with the unsupported
mode `"entropy"` returns a (here empty) result set instead of failing, and
`thermal_stress` with the unsupported constraint `"rigid"` silently takes
the half-restrained branch instead of failing. -/
theorem unsupported_variant_not_always_error :
    ("entropy" ∉ (["conduction", "convection", "radiation"] : List String)) ∧
    Thermo.heat_transfer 1 1 1 1 "entropy" = .ok [] ∧
    ("rigid" ≠ "full") ∧
    StressA.thermal_stress 1 1 1 "rigid" =
      [("thermal_stress", -(0.5 : ℚ) * 1 * 1 * 1), ("thermal_strain", (0.5 : ℚ) * 1 * 1)] := by
  exact ⟨by decide, rfl, by decide, rfl⟩

/-- Claim C2, amended: the four dispatchers that do validate their variant
string — `pressure_vessel_stress`, `weir_flow`, `cam_analysis`,
`open_channel_flow` — fail on an unsupported name with an error naming the
valid options, before computing anything; in particular `open_channel_flow`
with `channel_type = "trapezoidal"` fails and never substitutes rectangular
behaviour.  (`heat_transfer` and `thermal_stress`, by the counterexample,
do not fail.) -/
theorem unsupported_variant_errors :
    (∀ (O : RealOps) (p r t : ℚ) (vt : String),
      vt ∉ (["thin_cylinder", "thick_cylinder", "sphere"] : List String) →
      StressA.pressure_vessel_stress O p r t vt =
        .error "Invalid vessel type. Choose \x27thin_cylinder\x27, \x27thick_cylinder\x27, or \x27sphere\x27") ∧
    (∀ (O : RealOps) (h w hd : ℚ) (wt : String),
      wt ∉ (["rectangular", "v-notch"] : List String) →
      FluidM.weir_flow O h w hd wt =
        .error "Invalid weir type. Choose \x27rectangular\x27 or \x27v-notch\x27") ∧
    (∀ (O : RealOps) (b l a : ℚ) (ct : String),
      ct ∉ (["simple_harmonic", "cycloidal", "parabolic"] : List String) →
      Kinematics.cam_analysis O b l a ct =
        .error "Unsupported cam type. Choose from: [\x27simple_harmonic\x27, \x27cycloidal\x27, \x27parabolic\x27]") ∧
    (∀ (O : RealOps) (w d s n : ℚ) (ct : String), ct ≠ "rectangular" →
      FluidM.open_channel_flow O w d s n ct =
        .error "Only rectangular channels are currently supported") := by
  refine ⟨?_, ?_, ?_, ?_⟩
  · intro O p r t vt hvt
    simp only [List.mem_cons, List.mem_singleton, not_or] at hvt
    simp [StressA.pressure_vessel_stress, hvt.1, hvt.2.1, hvt.2.2.1]
  · intro O h w hd wt hwt
    simp only [List.mem_cons, List.mem_singleton, not_or] at hwt
    simp [FluidM.weir_flow, hwt.1, hwt.2.1]
  · intro O b l a ct hct
    simp [Kinematics.cam_analysis, hct]
  · intro O w d s n ct hct
    simp [FluidM.open_channel_flow, hct]

/-- Claim C2, witness: the amended theorem applied to concrete unsupported
names, in particular `open_channel_flow` with `"trapezoidal"`. -/
theorem unsupported_variant_errors_witness :
    ("trapezoidal" ∉ (["thin_cylinder", "thick_cylinder", "sphere"] : List String)) ∧
    StressA.pressure_vessel_stress O0 1 1 1 "trapezoidal" =
      .error "Invalid vessel type. Choose \x27thin_cylinder\x27, \x27thick_cylinder\x27, or \x27sphere\x27" ∧
    FluidM.weir_flow O0 1 1 (1 / 2) "triangular" =
      .error "Invalid weir type. Choose \x27rectangular\x27 or \x27v-notch\x27" ∧
    Kinematics.cam_analysis O0 1 1 90 "polynomial" =
      .error "Unsupported cam type. Choose from: [\x27simple_harmonic\x27, \x27cycloidal\x27, \x27parabolic\x27]" ∧
    FluidM.open_channel_flow O0 2 1 (1 / 100) (3 / 100) "trapezoidal" =
      .error "Only rectangular channels are currently supported" := by
  exact ⟨by decide,
    unsupported_variant_errors.1 O0 1 1 1 "trapezoidal" (by decide),
    unsupported_variant_errors.2.1 O0 1 1 (1 / 2) "triangular" (by decide),
    unsupported_variant_errors.2.2.1 O0 1 1 90 "polynomial" (by decide),
    unsupported_variant_errors.2.2.2 O0 2 1 (1 / 100) (3 / 100) "trapezoidal" (by decide)⟩

/-! ## Claim C7: materials lookup misses -/

/-- Claim C7, counterexample: the claim says EVERY materials operation,
including the bare lookup `get_material_properties`, fails on an absent
code; but for a code absent from the table the bare lookup returns the
empty dict — a normal, non-failing result. -/
theorem get_material_properties_returns_empty :
    Materials.MATERIALS_DB.lookup "TITANIUM_G5" = none ∧
    Materials.get_material_properties "TITANIUM_G5" = [] := by
  exact ⟨rfl, rfl⟩

/-- Claim C7, amended: for every material code absent from the static table,
each derived materials operation (`calculate_stress_strain`,
`thermal_expansion`, `heat_conduction`, `material_cost_estimate`) fails with
the "Material not found in database" error; the bare lookup
`get_material_properties` instead returns the empty dict. -/
theorem materials_ops_fail_on_missing_code :
    ∀ code : String, Materials.MATERIALS_DB.lookup code = none →
    Materials.get_material_properties code = [] ∧
    ∀ f a il tc ar th td vol pf : ℚ,
      Materials.calculate_stress_strain f a code = .error "Material not found in database" ∧
      Materials.thermal_expansion code il tc = .error "Material not found in database" ∧
      Materials.heat_conduction code ar th td = .error "Material not found in database" ∧
      Materials.material_cost_estimate code vol pf =
        .error "Material not found in database" := by
  intro code h
  have hempty : Materials.get_material_properties code = [] := by
    simp [Materials.get_material_properties, h]
  refine ⟨hempty, fun f a il tc ar th td vol pf => ⟨?_, ?_, ?_, ?_⟩⟩
  · simp [Materials.calculate_stress_strain, hempty]
  · simp [Materials.thermal_expansion, hempty]
  · simp [Materials.heat_conduction, hempty]
  · simp [Materials.material_cost_estimate, hempty]

/-- Claim C7, witness: the amended theorem applied to the absent code
`"TITANIUM_G5"` and concrete numeric arguments. -/
theorem materials_ops_fail_on_missing_code_witness :
    Materials.MATERIALS_DB.lookup "TITANIUM_G5" = none ∧
    Materials.calculate_stress_strain 1000 (1 / 100) "TITANIUM_G5" =
      .error "Material not found in database" ∧
    Materials.thermal_expansion "TITANIUM_G5" 2 50 =
      .error "Material not found in database" ∧
    Materials.heat_conduction "TITANIUM_G5" 1 (1 / 10) 40 =
      .error "Material not found in database" ∧
    Materials.material_cost_estimate "TITANIUM_G5" 3 (3 / 2) =
      .error "Material not found in database" := by
  have h : Materials.MATERIALS_DB.lookup "TITANIUM_G5" = none := by decide
  have hall := (materials_ops_fail_on_missing_code "TITANIUM_G5" h).2
    1000 (1 / 100) 2 50 1 (1 / 10) 40 3 (3 / 2)
  exact ⟨h, hall.1, hall.2.1, hall.2.2.1, hall.2.2.2⟩

/-! ## Claim C5: fatigue_analysis formulas -/

/-- Claim C5: whenever `fatigue_analysis` returns (its three Python float
divisions having nonzero divisors), the modified endurance limit is
`Se = endurance_limit · surface_factor · size_factor · reliability_factor`,
the safety factor is `1/(amp/Se + mean/Su)` with `amp = (max − min)/2` and
`mean = (max + min)/2`, and `cycles_to_failure` is the sentinel `1e6` when
the safety factor exceeds `1` and `(amp/Se)^(1/b)` with `b = −0.085`
otherwise. -/
theorem fatigue_analysis_spec :
    ∀ (O : RealOps) (smax smin su el sf szf rf : ℚ),
    el * sf * szf * rf ≠ 0 → su ≠ 0 →
    (smax - smin) / 2 / (el * sf * szf * rf) + (smax + smin) / 2 / su ≠ 0 →
    StressA.fatigue_analysis O smax smin su el sf szf rf = .ok
      [("safety_factor",
          1 / ((smax - smin) / 2 / (el * sf * szf * rf) + (smax + smin) / 2 / su)),
       ("modified_endurance_limit", el * sf * szf * rf),
       ("stress_amplitude", (smax - smin) / 2),
       ("mean_stress", (smax + smin) / 2),
       ("cycles_to_failure",
          if 1 < 1 / ((smax - smin) / 2 / (el * sf * szf * rf) + (smax + smin) / 2 / su)
          then (1e6 : ℚ)
          else O.powf ((smax - smin) / 2 / (el * sf * szf * rf)) (1 / (-0.085 : ℚ)))] := by
  intro O smax smin su el sf szf rf hSe hsu hden
  simp only [StressA.fatigue_analysis, pdiv_ok hSe, pdiv_ok hsu, pdiv_ok hden,
    Except.bind, Except.map, gt_iff_lt]

/-- Claim C5, witness: the theorem applied at
`(smax, smin, su, el, sf, szf, rf) = (3, 1, 1, 1, 1, 1, 1)`, where
`amp = 1`, `mean = 2`, `Se = 1` and the safety factor is `1/3 ≤ 1`, so the
Basquin power branch is taken. -/
theorem fatigue_analysis_spec_witness :
    ((1 : ℚ) * 1 * 1 * 1 ≠ 0) ∧
    ((3 - 1 : ℚ) / 2 / (1 * 1 * 1 * 1) + (3 + 1) / 2 / 1 ≠ 0) ∧
    StressA.fatigue_analysis O0 3 1 1 1 1 1 1 = .ok
      [("safety_factor", 1 / ((3 - 1 : ℚ) / 2 / (1 * 1 * 1 * 1) + (3 + 1) / 2 / 1)),
       ("modified_endurance_limit", (1 : ℚ) * 1 * 1 * 1),
       ("stress_amplitude", (3 - 1 : ℚ) / 2),
       ("mean_stress", (3 + 1 : ℚ) / 2),
       ("cycles_to_failure",
          if 1 < 1 / ((3 - 1 : ℚ) / 2 / (1 * 1 * 1 * 1) + (3 + 1) / 2 / 1)
          then (1e6 : ℚ)
          else O0.powf ((3 - 1 : ℚ) / 2 / (1 * 1 * 1 * 1)) (1 / (-0.085 : ℚ)))] := by
  exact ⟨by norm_num, by norm_num,
    fatigue_analysis_spec O0 3 1 1 1 1 1 1 (by norm_num) (by norm_num) (by norm_num)⟩

/-! ## Claim C1: four-bar mechanism at an unassemblable configuration -/

/-- Claim C1, failing input: with links `(crank, coupler, rocker, ground) =
(1, 10, 1, 1)` and crank angle `0°` the discriminant is `−9021 < 0`, the
mechanism is not assemblable, yet `four_bar_mechanism` returns normally with
a result set whose two entries are NaN (`none`) — the silent NaN the claim
and the specification rule out. -/
theorem four_bar_returns_silent_nan :
    Kinematics.specDisc 1 10 1 1 (Kinematics.radiansR 0) < 0 ∧
    Kinematics.four_bar_mechanism 1 10 1 1 0 =
      [("rocker_angle", none), ("coupler_angle", none)] := by
  have h0 : Kinematics.radiansR 0 = 0 := by
    simp [Kinematics.radiansR]
  have hdisc : Kinematics.specDisc 1 10 1 1 (Kinematics.radiansR 0) = -9021 := by
    rw [h0]
    simp [Kinematics.specDisc, Kinematics.specA, Kinematics.specB, Kinematics.specC]
    norm_num
  have hdisc' :
      (2 * 1 * 1 * Real.cos 0) ^ 2 + (2 * 1 * 1 * Real.sin 0) ^ 2 -
        ((1 : ℝ) ^ 2 + 1 ^ 2 - 10 ^ 2 + 1 ^ 2 + 2 * 1 * 1 * Real.cos 0) ^ 2 < 0 := by
    simp
    norm_num
  constructor
  · rw [hdisc]; norm_num
  · simp only [Kinematics.four_bar_mechanism, Kinematics.fb_solve_position, h0,
      Kinematics.npSqrt, if_pos hdisc', Option.map_none']

/-! ## Claim C6: the rocker-angle formula -/

/-- Claim C6, counterexample: at the assemblable configuration
`(a, b, c, d) = (1, 2, 1, 1)`, crank angle `0` rad (discriminant `3 ≥ 0`,
`C − A = −1 < 0`), the code's rocker angle `2·atan((−B+√3)/(C−A)) =
2·atan(−√3)` differs from the claimed `2·atan2(−B+√3, C−A) =
2·(atan(−√3) + π)` — the two forms disagree exactly where the claim says
they matter, so the claim misdescribes the code. -/
theorem four_bar_rocker_not_atan2 :
    (0 : ℝ) ≤ Kinematics.specDisc 1 2 1 1 0 ∧
    (Kinematics.fb_solve_position 1 2 1 1 0).1 ≠
      some (Kinematics.claimedRockerAtan2 1 2 1 1 0) := by
  have hA : Kinematics.specA 1 1 0 = 2 := by
    simp [Kinematics.specA]
  have hB : Kinematics.specB 1 1 0 = 0 := by
    simp [Kinematics.specB]
  have hC : Kinematics.specC 1 2 1 1 0 = 1 := by
    simp [Kinematics.specC]
    norm_num
  have hdisc : Kinematics.specDisc 1 2 1 1 0 = 3 := by
    rw [Kinematics.specDisc, hA, hB, hC]
    norm_num
  refine ⟨by rw [hdisc]; norm_num, ?_⟩
  have hsqrt3 : (0 : ℝ) ≤ Real.sqrt 3 := Real.sqrt_nonneg 3
  have hclaimed : Kinematics.claimedRockerAtan2 1 2 1 1 0 =
      2 * (Real.arctan (Real.sqrt 3 / (-1)) + Real.pi) := by
    rw [Kinematics.claimedRockerAtan2, hA, hB, hC, hdisc]
    rw [Kinematics.atan2]
    norm_num [hsqrt3]
  have hcode : (Kinematics.fb_solve_position 1 2 1 1 0).1 =
      some (2 * Real.arctan (Real.sqrt 3 / (-1))) := by
    have hd : ((2 : ℝ) * 1 * 1 * Real.cos 0) ^ 2 + (2 * 1 * 1 * Real.sin 0) ^ 2 -
        ((1 : ℝ) ^ 2 + 1 ^ 2 - 2 ^ 2 + 1 ^ 2 + 2 * 1 * 1 * Real.cos 0) ^ 2 = 3 := by
      simp
      norm_num
    simp only [Kinematics.fb_solve_position, Kinematics.npSqrt, hd]
    rw [if_neg (by norm_num)]
    simp
    norm_num
  rw [hcode, hclaimed]
  intro heq
  have := Option.some.inj heq
  have hpi := Real.pi_pos
  nlinarith [this]

/-- Claim C6, amended: for every assemblable configuration (discriminant
`A² + B² − C² ≥ 0`) with `C − A ≠ 0`, `solve_position` computes the rocker
angle as `β = 2·atan((−B + √(A²+B²−C²)) / (C − A))` — the ONE-argument
arctangent of the quotient, which agrees with the claimed `atan2` form only
when `C − A > 0` — with `A = 2·a·d·cos θ`, `B = 2·a·d·sin θ`,
`C = a²+d²−b²+c²+2·a·d·cos θ`, and the coupler angle via `atan2`. -/
theorem four_bar_rocker_is_arctan :
    ∀ a b c d theta : ℝ, 0 ≤ Kinematics.specDisc a b c d theta →
    Kinematics.specC a b c d theta - Kinematics.specA a d theta ≠ 0 →
    Kinematics.fb_solve_position a b c d theta =
      (some (Kinematics.amendedRockerArctan a b c d theta),
       some (Kinematics.specCoupler a c theta
          (Kinematics.amendedRockerArctan a b c d theta))) := by
  intro a b c d theta hdisc _hCA
  have hne : ¬((2 * a * d * Real.cos theta) ^ 2 + (2 * a * d * Real.sin theta) ^ 2 -
      (a ^ 2 + d ^ 2 - b ^ 2 + c ^ 2 + 2 * a * d * Real.cos theta) ^ 2 < 0) := by
    rw [not_lt]
    simpa [Kinematics.specDisc, Kinematics.specA, Kinematics.specB,
      Kinematics.specC] using hdisc
  simp only [Kinematics.fb_solve_position, Kinematics.npSqrt, if_neg hne]
  rfl

/-- Claim C6, witness: the amended theorem applied at the assemblable
configuration `(a, b, c, d) = (1, 2, 1, 1)`, `θ = 0` (discriminant `3`,
`C − A = −1`). -/
theorem four_bar_rocker_is_arctan_witness :
    (0 : ℝ) ≤ Kinematics.specDisc 1 2 1 1 0 ∧
    Kinematics.specC 1 2 1 1 0 - Kinematics.specA 1 1 0 ≠ 0 ∧
    Kinematics.fb_solve_position 1 2 1 1 0 =
      (some (Kinematics.amendedRockerArctan 1 2 1 1 0),
       some (Kinematics.specCoupler 1 1 0 (Kinematics.amendedRockerArctan 1 2 1 1 0))) := by
  have hdisc : (0 : ℝ) ≤ Kinematics.specDisc 1 2 1 1 0 := by
    have : Kinematics.specDisc 1 2 1 1 0 = 3 := by
      simp [Kinematics.specDisc, Kinematics.specA, Kinematics.specB, Kinematics.specC]
      norm_num
    rw [this]; norm_num
  have hCA : Kinematics.specC 1 2 1 1 0 - Kinematics.specA 1 1 0 ≠ 0 := by
    have h1 : Kinematics.specC 1 2 1 1 0 = 1 := by
      simp [Kinematics.specC]; norm_num
    have h2 : Kinematics.specA 1 1 0 = 2 := by
      simp [Kinematics.specA]
    rw [h1, h2]; norm_num
  exact ⟨hdisc, hCA, four_bar_rocker_is_arctan 1 2 1 1 0 hdisc hCA⟩

/-! ## Claims C8 and C10: shaft_design standard-size selection -/

/-- Every entry of the standard-size table is positive and at most 100 mm. -/
theorem std_sizes_bounds : ∀ s ∈ MachineD.std_sizes, 0 < s ∧ s ≤ 100 := by
  decide

/-- For a required size of at most 100 mm, `min` over the filtered
standard-size table returns the least table entry that is at least the
required size. -/
theorem least_std (x : ℚ) (hx : x ≤ 100) :
    ∃ m, (MachineD.std_sizes.filter fun s => x ≤ s).min? = some m ∧
      m ∈ MachineD.std_sizes ∧ x ≤ m ∧
      ∀ s ∈ MachineD.std_sizes, x ≤ s → m ≤ s := by
  have h100 : (100 : ℚ) ∈ MachineD.std_sizes.filter (fun s => x ≤ s) :=
    List.mem_filter.mpr ⟨by decide, by simpa using hx⟩
  obtain ⟨m, hm⟩ :
      ∃ m, (MachineD.std_sizes.filter fun s => x ≤ s).min? = some m := by
    cases hL : (MachineD.std_sizes.filter fun s => x ≤ s).min? with
    | none =>
        rw [List.min?_eq_none_iff.mp hL] at h100
        exact absurd h100 (List.not_mem_nil _)
    | some m => exact ⟨m, rfl⟩
  have hchar := (List.min?_eq_some_iff (le_refl) (fun a b => min_choice a b)
    (fun a b c => le_min_iff)).mp hm
  refine ⟨m, hm, (List.mem_filter.mp hchar.1).1, ?_, ?_⟩
  · simpa using (List.mem_filter.mp hchar.1).2
  · intro s hs hxs
    exact hchar.2 s (List.mem_filter.mpr ⟨hs, by simpa using hxs⟩)

/-- Claim C8: whenever the two strength divisors are nonzero, the equivalent
moment is nonzero, and the governing required diameter (the larger of the
static- and fatigue-governed diameters from the ASME equivalent moment) is
at most the largest table entry (0.1 m, i.e. 100 mm), `shaft_design`
succeeds and its `actual_diameter` is the least entry of the standard-size
table that is at least the required diameter — round up to at-least, never
down. -/
theorem shaft_design_rounds_up :
    ∀ (O : RealOps) (torque bending_moment mys : ℚ) (fsOpt : Option ℚ) (sf k : ℚ),
    O.piq * (mys * 1e6) ≠ 0 →
    O.piq * (fsOpt.getD ((0.5 : ℚ) * mys) * 1e6) ≠ 0 →
    MachineD.asmeMe O torque bending_moment k ≠ 0 →
    MachineD.requiredDiameter O torque bending_moment mys fsOpt sf k * 1000 ≤ 100 →
    ∃ m : ℚ, m ∈ MachineD.std_sizes ∧
      MachineD.requiredDiameter O torque bending_moment mys fsOpt sf k * 1000 ≤ m ∧
      (∀ s ∈ MachineD.std_sizes,
        MachineD.requiredDiameter O torque bending_moment mys fsOpt sf k * 1000 ≤ s →
        m ≤ s) ∧
      MachineD.shaft_design O torque bending_moment mys fsOpt sf k = .ok
        [("required_diameter", MachineD.requiredDiameter O torque bending_moment mys fsOpt sf k),
         ("actual_diameter", m / 1000),
         ("equivalent_moment", MachineD.asmeMe O torque bending_moment k),
         ("maximum_stress",
            32 * MachineD.asmeMe O torque bending_moment k / (O.piq * (m / 1000) ^ 3) / 1e6),
         ("actual_safety_factor",
            min (mys * 1e6) (fsOpt.getD ((0.5 : ℚ) * mys) * 1e6) /
              (32 * MachineD.asmeMe O torque bending_moment k / (O.piq * (m / 1000) ^ 3)))] := by
  intro O torque bending_moment mys fsOpt sf k hSy hSf hMe hreq
  obtain ⟨m, hm, hmem, hxm, hmin⟩ :=
    least_std (MachineD.requiredDiameter O torque bending_moment mys fsOpt sf k * 1000) hreq
  have hpi : O.piq ≠ 0 := left_ne_zero_of_mul hSy
  have hmpos : (0 : ℚ) < m := (std_sizes_bounds m hmem).1
  have hm1000 : (m / 1000 : ℚ) ≠ 0 := ne_of_gt (by positivity)
  have hden3 : O.piq * (m / 1000) ^ 3 ≠ 0 := mul_ne_zero hpi (pow_ne_zero 3 hm1000)
  have hstress : 32 * MachineD.asmeMe O torque bending_moment k / (O.piq * (m / 1000) ^ 3) ≠ 0 :=
    div_ne_zero (mul_ne_zero (by norm_num) hMe) hden3
  refine ⟨m, hmem, hxm, hmin, ?_⟩
  have hm' : (MachineD.std_sizes.filter fun s =>
      MachineD.requiredDiameter O torque bending_moment mys fsOpt sf k * 1000 ≤ s).min? =
      some m := hm
  simp only [MachineD.requiredDiameter, MachineD.asmeMe] at hm'
  simp only [MachineD.shaft_design, MachineD.asmeMe, pdiv_ok hSy, pdiv_ok hSf, Except.bind]
  rw [hm']
  simp only [MachineD.asmeMe] at hstress hden3
  simp only [pdiv_ok hden3, pdiv_ok hstress, Except.map]
  simp only [MachineD.requiredDiameter, MachineD.asmeMe]

/-- Claim C8, witness: the theorem applied with the concrete interpretation
`Ocube` (whose `powf` is constantly `1/100`) and unit inputs; the required
diameter is 10 mm and the selected entry is the table's 10 mm. -/
theorem shaft_design_rounds_up_witness :
    (Ocube.piq * ((1 : ℚ) * 1e6) ≠ 0) ∧
    (MachineD.requiredDiameter Ocube 1 1 1 (some 1) 1 1 * 1000 ≤ 100) ∧
    ∃ m : ℚ, m ∈ MachineD.std_sizes ∧
      MachineD.requiredDiameter Ocube 1 1 1 (some 1) 1 1 * 1000 ≤ m ∧
      (∀ s ∈ MachineD.std_sizes,
        MachineD.requiredDiameter Ocube 1 1 1 (some 1) 1 1 * 1000 ≤ s → m ≤ s) ∧
      MachineD.shaft_design Ocube 1 1 1 (some 1) 1 1 = .ok
        [("required_diameter", MachineD.requiredDiameter Ocube 1 1 1 (some 1) 1 1),
         ("actual_diameter", m / 1000),
         ("equivalent_moment", MachineD.asmeMe Ocube 1 1 1),
         ("maximum_stress",
            32 * MachineD.asmeMe Ocube 1 1 1 / (Ocube.piq * (m / 1000) ^ 3) / 1e6),
         ("actual_safety_factor",
            min ((1 : ℚ) * 1e6) ((some (1:ℚ)).getD ((0.5 : ℚ) * 1) * 1e6) /
              (32 * MachineD.asmeMe Ocube 1 1 1 / (Ocube.piq * (m / 1000) ^ 3)))] := by
  have h1 : Ocube.piq * ((1 : ℚ) * 1e6) ≠ 0 := by
    norm_num [Ocube]
  have h2 : Ocube.piq * ((some (1 : ℚ)).getD ((0.5 : ℚ) * 1) * 1e6) ≠ 0 := by
    norm_num [Ocube]
  have h3 : MachineD.asmeMe Ocube 1 1 1 ≠ 0 := by
    norm_num [MachineD.asmeMe, Ocube]
  have h4 : MachineD.requiredDiameter Ocube 1 1 1 (some 1) 1 1 * 1000 ≤ 100 := by
    norm_num [MachineD.requiredDiameter, MachineD.asmeMe, Ocube]
  exact ⟨h1, h4, shaft_design_rounds_up Ocube 1 1 1 (some 1) 1 1 h1 h2 h3 h4⟩

/-- Claim C10: when both strength divisors are nonzero but the governing
required diameter exceeds the largest table entry (0.1 m), the standard-size
selection runs over an empty candidate set and `shaft_design` fails with the
`ValueError` that Python's `min` raises on an empty sequence — it returns no
diameter at all. -/
theorem shaft_design_fails_beyond_table :
    ∀ (O : RealOps) (torque bending_moment mys : ℚ) (fsOpt : Option ℚ) (sf k : ℚ),
    O.piq * (mys * 1e6) ≠ 0 →
    O.piq * (fsOpt.getD ((0.5 : ℚ) * mys) * 1e6) ≠ 0 →
    100 < MachineD.requiredDiameter O torque bending_moment mys fsOpt sf k * 1000 →
    MachineD.shaft_design O torque bending_moment mys fsOpt sf k =
      .error "min() arg is an empty sequence" := by
  intro O torque bending_moment mys fsOpt sf k hSy hSf hbig
  have hfilter : (MachineD.std_sizes.filter fun s =>
      MachineD.requiredDiameter O torque bending_moment mys fsOpt sf k * 1000 ≤ s) = [] := by
    rw [List.filter_eq_nil_iff]
    intro s hs
    have hb := (std_sizes_bounds s hs).2
    simp only [decide_eq_true_eq]
    intro hle
    linarith
  simp only [MachineD.requiredDiameter, MachineD.asmeMe] at hfilter
  simp only [MachineD.shaft_design, pdiv_ok hSy, pdiv_ok hSf, Except.bind]
  rw [hfilter]
  rfl

/-- Claim C10, witness: the theorem applied with `O0` (whose `powf` is
constantly `1`, so the required diameter is 1 m, beyond the table) and unit
inputs. -/
theorem shaft_design_fails_beyond_table_witness :
    (O0.piq * ((1 : ℚ) * 1e6) ≠ 0) ∧
    (100 < MachineD.requiredDiameter O0 1 1 1 none 1 1 * 1000) ∧
    MachineD.shaft_design O0 1 1 1 none 1 1 = .error "min() arg is an empty sequence" := by
  have h1 : O0.piq * ((1 : ℚ) * 1e6) ≠ 0 := by
    norm_num [O0]
  have h2 : O0.piq * ((none : Option ℚ).getD ((0.5 : ℚ) * 1) * 1e6) ≠ 0 := by
    norm_num [O0]
  have h3 : 100 < MachineD.requiredDiameter O0 1 1 1 none 1 1 * 1000 := by
    norm_num [MachineD.requiredDiameter, MachineD.asmeMe, O0]
  exact ⟨h1, h3, shaft_design_fails_beyond_table O0 1 1 1 none 1 1 h1 h2 h3⟩

end MechSolver
